import Mathlib

/-!
Shallow embedding of the `api-err` Rust crate (src/lib.rs, src/category.rs,
src/http.rs, src/json_rpc.rs) and proofs of the specified properties.

Modelling choices:
* `anyhow::Error` is modelled as its cause chain, a `List String`, with the
  shallowest layer (the most recently attached context) at the head; the
  deepest element is the original cause.  `anyhow::Error::context` pushes a
  new shallowest layer.
* `Result<T, E>` is modelled by `Except ε α`; `Into<Error>` conversions are
  passed explicitly as a function `into : ε → Error` (for `E = Error` the
  blanket identity impl corresponds to `into = id`).
* Rust closures (`FnOnce(&mut Error)`, `FnOnce() -> C`) become Lean
  functions `Error → Error` and `Unit → String`.
* `u16` / `i32` status codes become `Nat` / `Int`; the mappers copy them
  verbatim, so no modular arithmetic arises.  Range hypotheses are stated
  where the spec quantifies over the machine-integer range.
-/

namespace ApiErr

/-- The `Category` enum from src/category.rs.  With both the `http` and
`json_rpc` features enabled, `Custom` carries both status fields. -/
inductive Category where
  | badRequest : Category
  | custom (http_status : Nat) (json_rpc_status : Int) : Category
deriving DecidableEq, Repr

/-- The core `Error` type from src/lib.rs: an anyhow cause chain (shallowest
layer first) together with an optional category. -/
structure Error where
  anyhow : List String
  category : Option Category
deriving DecidableEq, Repr

/-- `impl<E> From<E> for Error` (src/lib.rs): wraps the converted anyhow
error and leaves the category unset. -/
def error_from {ε : Type} (intoAnyhow : ε → List String) (e : ε) : Error :=
  { anyhow := intoAnyhow e, category := none }

/-- `Error::context` (src/lib.rs): delegates to `anyhow::Error::context`,
which wraps the chain in a new shallowest layer; the category field is
carried through unchanged. -/
def Error.context (e : Error) (msg : String) : Error :=
  { e with anyhow := msg :: e.anyhow }

namespace Http

/-- `http::status_code` from src/http.rs. -/
def status_code : Option Category → Nat
  | none => 500
  | some Category.badRequest => 400
  | some (Category.custom http_status _) => http_status

end Http

namespace JsonRpc

/-- `json_rpc::status_code` from src/json_rpc.rs. -/
def status_code : Option Category → Int
  | none => -32000
  | some Category.badRequest => -32600
  | some (Category.custom _ json_rpc_status) => json_rpc_status

end JsonRpc

/-- `Error::http_status` (src/lib.rs): applies the HTTP mapper to the
error's own category. -/
def Error.http_status (e : Error) : Nat :=
  Http.status_code e.category

/-- `Error::json_rpc_status` (src/lib.rs): applies the JSON-RPC mapper to
the error's own category. -/
def Error.json_rpc_status (e : Error) : Int :=
  JsonRpc.status_code e.category

/-- `CategoryExt::_internal_error_mut` for `Result<T, E>` (src/category.rs):
passes a success through unchanged; on failure converts the error via
`Into<Error>` and applies the mutation. -/
def internal_error_mut {ε α : Type} (into : ε → Error) (f : Error → Error) :
    Except ε α → Except Error α
  | Except.ok t => Except.ok t
  | Except.error e => Except.error (f (into e))

/-- `CategoryExt::with_category` (src/category.rs): sets the category field
to `some c` via `_internal_error_mut`. -/
def with_category {ε α : Type} (into : ε → Error) (c : Category)
    (r : Except ε α) : Except Error α :=
  internal_error_mut into (fun e => { e with category := some c }) r

/-- `CategoryExt::bad_request` (src/category.rs): `with_category` at
`Category::BadRequest`. -/
def bad_request {ε α : Type} (into : ε → Error) (r : Except ε α) :
    Except Error α :=
  with_category into Category.badRequest r

/-- `Context::context` for `Result<T, E>` (src/lib.rs). -/
def resultContext {ε α : Type} (into : ε → Error) (msg : String) :
    Except ε α → Except Error α
  | Except.ok t => Except.ok t
  | Except.error e => Except.error ((into e).context msg)

/-- `Context::with_context` for `Result<T, E>` (src/lib.rs): the message is
computed by the closure only on the failure branch. -/
def resultWithContext {ε α : Type} (into : ε → Error) (f : Unit → String) :
    Except ε α → Except Error α
  | Except.ok t => Except.ok t
  | Except.error e => Except.error ((into e).context (f ()))

/-- `Context::context` for `Option<T>` (src/lib.rs): `None` becomes a fresh
`anyhow::anyhow!(msg)` error (a one-layer chain) with no category. -/
def optionContext {α : Type} (msg : String) : Option α → Except Error α
  | some t => Except.ok t
  | none => Except.error { anyhow := [msg], category := none }

/-- `Context::with_context` for `Option<T>` (src/lib.rs): like
`optionContext` but the message closure is invoked only on the `None`
branch. -/
def optionWithContext {α : Type} (f : Unit → String) :
    Option α → Except Error α
  | some t => Except.ok t
  | none => Except.error { anyhow := [f ()], category := none }

/-- Spec-side accessor: the category of the error carried by a failed
result, `none` on success. -/
def errCategory {α : Type} : Except Error α → Option (Option Category)
  | Except.ok _ => none
  | Except.error e => some e.category

/-- Spec-side accessor: the cause chain of the error carried by a failed
result, `none` on success. -/
def errChain {α : Type} : Except Error α → Option (List String)
  | Except.ok _ => none
  | Except.error e => some e.anyhow

/-- Modelled from the spec: the full-chain rendering (provided by
`anyhow::Error`, not by code under src/) lists all layers from shallowest
(latest context) to deepest (original cause), i.e. in chain order. -/
def renderChain (e : Error) : List String :=
  e.anyhow

end ApiErr

open ApiErr

/-- C1: `with_category` passes a success value through unchanged; on
failure it converts the error into an `Error` and sets its category to
`some c`, overwriting any previous category, so a second `with_category`
wins (the second application uses the identity `Into<Error>` impl). -/
theorem C1_with_category_sets_and_overwrites {ε α : Type}
    (into : ε → Error) (t : α) (e : ε) (c c2 : Category) :
    with_category into c (Except.ok t : Except ε α) = Except.ok t
    ∧ errCategory (with_category into c (Except.error e : Except ε α)) =
        some (some c)
    ∧ errCategory (with_category id c2
        (with_category into c (Except.error e : Except ε α))) =
        some (some c2) := by
  refine ⟨rfl, rfl, rfl⟩

/-- C2: attaching context never changes the category: on the `Error` type
`context` carries the category field through unchanged, and in particular
`E.with_category(C).context(msg)` still reports category `some C`. -/
theorem C2_context_preserves_category {ε α : Type}
    (into : ε → Error) (E : Error) (e : ε) (c : Category) (msg : String) :
    (E.context msg).category = E.category
    ∧ errCategory ((resultContext id msg)
        (with_category into c (Except.error e : Except ε α))) =
        some (some c) := by
  exact ⟨rfl, rfl⟩

/-- C3: converting a native failure into `Error` via the blanket `From`
impl yields an error whose category is `none` (uncategorized). -/
theorem C3_from_native_uncategorized {ε : Type}
    (intoAnyhow : ε → List String) (e : ε) :
    (error_from intoAnyhow e).category = none :=
  rfl

/-- C4: the HTTP status mapper is total on `Option Category`: `none` maps
to 500, `BadRequest` to 400, and `Custom` to its carried `http_status`
verbatim with no validation, for every u16 value. -/
theorem C4_http_status_code (n : Nat) (j : Int) (h : n < 65536) :
    Http.status_code none = 500
    ∧ Http.status_code (some Category.badRequest) = 400
    ∧ Http.status_code (some (Category.custom n j)) = n := by
  exact ⟨rfl, rfl, rfl⟩

/-- C4 witness: the mapper at the concrete custom status 418. -/
theorem C4_http_status_code_witness :
    Http.status_code none = 500
    ∧ Http.status_code (some Category.badRequest) = 400
    ∧ Http.status_code (some (Category.custom 418 0)) = 418 :=
  C4_http_status_code 418 0 (by decide)

/-- C5: the JSON-RPC status mapper is total on `Option Category`: `none`
maps to -32000, `BadRequest` to -32600, and `Custom` to its carried
`json_rpc_status` verbatim, for every i32 value. -/
theorem C5_json_rpc_status_code (n : Nat) (j : Int)
    (h : -(2 ^ 31) ≤ j ∧ j < 2 ^ 31) :
    JsonRpc.status_code none = -32000
    ∧ JsonRpc.status_code (some Category.badRequest) = -32600
    ∧ JsonRpc.status_code (some (Category.custom n j)) = j := by
  exact ⟨rfl, rfl, rfl⟩

/-- C5 witness: the mapper at the concrete custom status -32099. -/
theorem C5_json_rpc_status_code_witness :
    JsonRpc.status_code none = -32000
    ∧ JsonRpc.status_code (some Category.badRequest) = -32600
    ∧ JsonRpc.status_code (some (Category.custom 0 (-32099))) = -32099 :=
  C5_json_rpc_status_code 0 (-32099) (by decide)

/-- C6: converting `none` through `context` or `with_context` yields `Err`
holding a fresh error with exactly one chain layer (the given message) and
no category; `some t` passes through as `Ok t`. -/
theorem C6_option_context_fresh_error {α : Type}
    (msg : String) (f : Unit → String) (t : α) :
    optionContext msg (none : Option α) =
      Except.error { anyhow := [msg], category := none }
    ∧ optionWithContext f (none : Option α) =
      Except.error { anyhow := [f ()], category := none }
    ∧ optionContext msg (some t) = Except.ok t
    ∧ optionWithContext f (some t) = Except.ok t := by
  exact ⟨rfl, rfl, rfl, rfl⟩

/-- C7: `with_context` never uses its closure on the success path — the
success value passes through for every closure, so the result is
independent of the closure there — and on the failure path it agrees with
`context` applied to the closure's result. -/
theorem C7_with_context_lazy {ε α : Type}
    (into : ε → Error) (f g : Unit → String) (t : α) (e : ε) :
    resultWithContext into f (Except.ok t : Except ε α) = Except.ok t
    ∧ resultWithContext into f (Except.ok t : Except ε α) =
        resultWithContext into g (Except.ok t : Except ε α)
    ∧ resultWithContext into f (Except.error e : Except ε α) =
        resultContext into (f ()) (Except.error e)
    ∧ optionWithContext f (some t) = Except.ok t
    ∧ optionWithContext f (none : Option α) =
        optionContext (f ()) (none : Option α) := by
  exact ⟨rfl, rfl, rfl, rfl, rfl⟩

/-- C8: attaching a category never mutates or truncates the cause chain:
`with_category` and `bad_request` leave the chain of the converted error
untouched and change only the category field. -/
theorem C8_category_preserves_chain {ε α : Type}
    (into : ε → Error) (E : Error) (e : ε) (c : Category) :
    with_category id c (Except.error E : Except Error α) =
      Except.error { E with category := some c }
    ∧ bad_request id (Except.error E : Except Error α) =
      Except.error { E with category := some Category.badRequest }
    ∧ errChain (with_category into c (Except.error e : Except ε α)) =
        some (into e).anyhow
    ∧ errChain (bad_request into (Except.error e : Except ε α)) =
        some (into e).anyhow := by
  exact ⟨rfl, rfl, rfl, rfl⟩

/-- C9: context layering is append-only and ordered: `E.context msg` has
chain `msg :: E.anyhow` — the new message is the shallowest layer, all
prior layers are preserved in order from shallowest (latest context) to
deepest (original cause) — and the full-chain rendering lists the layers
in that same order. -/
theorem C9_context_appends_ordered (E : Error) (msg : String) :
    (E.context msg).anyhow = msg :: E.anyhow
    ∧ renderChain (E.context msg) = msg :: renderChain E := by
  exact ⟨rfl, rfl⟩

/-- C10: the status accessors on `Error` agree exactly with the protocol
mappers applied to the error's own category, and an error that was never
given a category (category field `none`) reports HTTP 500 and
JSON-RPC -32000. -/
theorem C10_status_accessors_agree (e : Error) (chain : List String) :
    e.http_status = Http.status_code e.category
    ∧ e.json_rpc_status = JsonRpc.status_code e.category
    ∧ (Error.mk chain none).http_status = 500
    ∧ (Error.mk chain none).json_rpc_status = -32000 := by
  exact ⟨rfl, rfl, rfl, rfl⟩
